import Mathlib

/-!
Verification development for the Neuralangelo GUI backend.

Shallow embedding of the job-supervision and pipeline code in
`backend/training_manager.py`, `backend/server.py` and
`backend/colmap_wrapper.py`, together with theorems settling the
specification's claims about it.

Modelling conventions:
* Python dicts keyed by project name become association lists whose update
  replaces the value in place (Python dicts keep insertion order).
* The external process attached to a job is abstracted to the observations
  the manager code can make of it: its pid, whether it is still alive, and
  whether it exits within the 10-second grace period after a terminate
  request.  Signals actually delivered to processes are returned explicitly.
* `os.kill` on a process that has already exited and been reaped raises
  `ProcessLookupError` (it is a raw syscall).  `process.terminate()` /
  `process.kill()` on a process whose exit status has already been observed
  is modelled as a skipped signal (the subprocess layer skips signalling a
  process it knows has died).
* Exceptions are `Except String`; a bare `except:` that swallows the
  exception is modelled by matching on the `Except` value and discarding
  the error branch.
-/

/-! ## TrainingManager (backend/training_manager.py) -/

/-- Unix signals sent by the manager. -/
inductive Sig
  | sigstop
  | sigcont
  | sigterm
  | sigkill
deriving DecidableEq, Repr

/-- One entry of `TrainingManager.active_trainings`: the bookkeeping dict
`{"process": ..., "status": ..., "iteration": ..., "loss": ...}` plus the
abstracted observable behaviour of the attached process (`alive`: the process
has not exited yet; `exitsInGrace`: after a terminate request it exits within
the 10-second `asyncio.wait_for` window). -/
structure Job where
  pid : Nat
  alive : Bool
  exitsInGrace : Bool
  status : String
  iteration : Int
  loss : ℚ
deriving DecidableEq, Repr

/-- The `active_trainings` dict: project name to job record, in insertion
order. -/
abbrev TState := List (String × Job)

/-- Dict lookup `active_trainings[name]` / the `name in active_trainings`
test. -/
def lookupJob (s : TState) (k : String) : Option Job :=
  match s with
  | [] => none
  | (k1, j) :: rest => if k1 = k then some j else lookupJob rest k

/-- Dict assignment `active_trainings[name] = job`: replaces the value of an
existing key in place, appends a new key at the end. -/
def setJob (s : TState) (k : String) (j : Job) : TState :=
  match s with
  | [] => [(k, j)]
  | (k1, j1) :: rest => if k1 = k then (k, j) :: rest else (k1, j1) :: setJob rest k j

/-- The slice of the start request's `config` dict that `start_training`
reads for registry bookkeeping: `config.get("scene_name", "default")`. -/
structure TrainConfig where
  scene_name : Option String
deriving DecidableEq, Repr

/-- Embeds `TrainingManager.start_training`.  `spawn` is the outcome of
config generation, command preparation and `asyncio.create_subprocess_exec`
(ok: the fresh process's pid; error: the exception, which the code re-raises
after broadcasting a `training_error`).  `g` is whether the fresh process
would exit within the grace window of a later terminate.  On success the
method unconditionally overwrites `active_trainings[project_name]` with a
fresh record `{"status": "running", "iteration": 0, "loss": 0.0}`; there is
no check for an already-active job for the same project. -/
def start_training (spawn : Except String Nat) (g : Bool) (s : TState)
    (cfg : TrainConfig) : Except String TState :=
  let project_name := cfg.scene_name.getD "default"
  match spawn with
  | Except.error e => Except.error e
  | Except.ok pid =>
      Except.ok (setJob s project_name
        { pid := pid, alive := true, exitsInGrace := g,
          status := "running", iteration := 0, loss := 0 })

/-- Embeds `TrainingManager.pause_training`: if the project has an entry in
`active_trainings` (whatever its status), send `SIGSTOP` via `os.kill` and
set the status to `"paused"`; if not, fall through silently.  `os.kill` on a
reaped process raises `ProcessLookupError`. -/
def pause_training (s : TState) (name : String) :
    Except String (TState × List (Nat × Sig)) :=
  match lookupJob s name with
  | none => Except.ok (s, [])
  | some job =>
      if job.alive then
        Except.ok (setJob s name { job with status := "paused" },
          [(job.pid, Sig.sigstop)])
      else Except.error "ProcessLookupError"

/-- Embeds `TrainingManager.resume_training`: symmetric to pause, sends
`SIGCONT` and sets the status to `"running"` whenever the project has an
entry in the dict. -/
def resume_training (s : TState) (name : String) :
    Except String (TState × List (Nat × Sig)) :=
  match lookupJob s name with
  | none => Except.ok (s, [])
  | some job =>
      if job.alive then
        Except.ok (setJob s name { job with status := "running" },
          [(job.pid, Sig.sigcont)])
      else Except.error "ProcessLookupError"

/-- Embeds `TrainingManager.stop_training`: if the project has an entry,
`terminate()` the process, wait up to 10 seconds, escalate to `kill()` on
timeout, then set the status to `"stopped"`.  Terminate/kill on a process
already known to have exited is a skipped signal; after the call the process
is no longer alive.  Projects without an entry fall through silently. -/
def stop_training (s : TState) (name : String) :
    Except String (TState × List (Nat × Sig)) :=
  match lookupJob s name with
  | none => Except.ok (s, [])
  | some job =>
      let sigs : List (Nat × Sig) :=
        if job.alive then
          if job.exitsInGrace then [(job.pid, Sig.sigterm)]
          else [(job.pid, Sig.sigterm), (job.pid, Sig.sigkill)]
        else []
      Except.ok (setJob s name { job with status := "stopped", alive := false },
        sigs)

/-- Result of `TrainingManager.get_status`: the job's bookkeeping dict when
the project is known, else the literal `{"status": "not_started"}`. -/
inductive StatusResult
  | job : Job → StatusResult
  | notStarted : StatusResult
deriving DecidableEq, Repr

/-- Embeds `TrainingManager.get_status`, as a state transformer like the
other methods so that its (absence of) effect on `active_trainings` is part
of the statement: it returns the entry when present, `not_started` otherwise,
and the dict unchanged. -/
def get_status (s : TState) (name : String) : StatusResult × TState :=
  match lookupJob s name with
  | some j => (StatusResult.job j, s)
  | none => (StatusResult.notStarted, s)

/-! ### Dictionary lemmas -/

theorem lookupJob_setJob (s : TState) (k : String) (j : Job) :
    lookupJob (setJob s k j) k = some j := by
  induction s with
  | nil => simp [setJob, lookupJob]
  | cons hd tl ih =>
      obtain ⟨k1, j1⟩ := hd
      by_cases h : k1 = k
      · simp [setJob, lookupJob, h]
      · simp [setJob, lookupJob, h, ih]

theorem setJob_setJob (s : TState) (k : String) (j1 j2 : Job) :
    setJob (setJob s k j1) k j2 = setJob s k j2 := by
  induction s with
  | nil => simp [setJob]
  | cons hd tl ih =>
      obtain ⟨k1, jx⟩ := hd
      by_cases h : k1 = k
      · simp [setJob, h]
      · simp [setJob, h, ih]

/-! ### Python string primitives

The Lean core `String` functions (`trim`, `splitOn`, `startsWith`) are
implemented on byte positions and do not reduce inside the kernel, so the
Python string operations the backend uses are modelled directly on character
lists. -/

/-- Substring search over character lists: does `needle` occur contiguously
inside `hay`? -/
def containsSub (needle hay : List Char) : Bool :=
  match hay with
  | [] => needle.isEmpty
  | _ :: rest => needle.isPrefixOf hay || containsSub needle rest

/-- Python's substring containment test `needle in hay`. -/
def pyIn (needle hay : String) : Bool :=
  containsSub needle.toList hay.toList

/-- Python `s.split(sep)` for a one-character separator: splits at every
occurrence, keeping empty pieces. -/
def pySplit (s : String) (sep : Char) : List String :=
  (s.toList.splitOn sep).map (fun cs => String.mk cs)

/-- ASCII whitespace, the class Python's `str.strip()` removes from the
telemetry lines in play. -/
def isSpaceChar (c : Char) : Bool :=
  c = ' ' || c = '\t' || c = '\n' || c = '\r'

/-- Python `s.strip()`: drop whitespace from both ends. -/
def pyStrip (s : String) : String :=
  String.mk (((s.toList.dropWhile isSpaceChar).reverse.dropWhile
    isSpaceChar).reverse)

/-- Python `s.startswith(pre)`. -/
def pyStartsWith (s pre : String) : Bool :=
  pre.toList.isPrefixOf s.toList

/-! ## ConnectionManager (backend/server.py) -/

/-- One registered WebSocket connection: its identity plus whether sending on
it currently fails (closed/broken channel). -/
structure Conn where
  id : Nat
  closed : Bool
deriving DecidableEq, Repr

/-- `websocket.send_json(message)`: raises when the channel is closed or the
send fails, succeeds otherwise.  The payload is abstracted to a `Nat` tag. -/
def send_json (c : Conn) (_m : Nat) : Except String Unit :=
  if c.closed then Except.error "ConnectionClosedError" else Except.ok ()

/-- The `for connection in self.active_connections` loop inside
`ConnectionManager.broadcast`: each send is wrapped in `try ... except: pass`,
so a failing send is skipped and the loop continues.  Returns the ids that
received the message, in list order. -/
def broadcastLoop (conns : List Conn) (m : Nat) : List Nat :=
  match conns with
  | [] => []
  | c :: rest =>
      match send_json c m with
      | Except.ok _ => c.id :: broadcastLoop rest m
      | Except.error _ => broadcastLoop rest m

/-- Embeds `ConnectionManager.broadcast`: iterates over
`self.active_connections` attempting `send_json` on each, swallowing all
exceptions.  The method never mutates `self.active_connections`, so the
state component of the result is the input list itself. -/
def broadcast (conns : List Conn) (m : Nat) : List Conn × List Nat :=
  (conns, broadcastLoop conns m)

/-! ## COLMAPProcessor (backend/colmap_wrapper.py) -/

/-- The four stages run by `COLMAPProcessor.process`, in declared order. -/
inductive Stage
  | featureExtraction
  | featureMatching
  | sparseReconstruction
  | imageUndistortion
deriving DecidableEq, Repr

/-- Position of a stage in the declared order. -/
def stageIdx : Stage → Nat
  | Stage.featureExtraction => 0
  | Stage.featureMatching => 1
  | Stage.sparseReconstruction => 2
  | Stage.imageUndistortion => 3

/-- The declared stage order of `COLMAPProcessor.process`. -/
def stageOrder : List Stage :=
  [Stage.featureExtraction, Stage.featureMatching,
   Stage.sparseReconstruction, Stage.imageUndistortion]

/-- Embeds `COLMAPProcessor._run_command`: runs the stage's external command
and raises `RuntimeError` when its exit code is non-zero. -/
def run_command (returncode : Int) : Except String Unit :=
  if returncode = 0 then Except.ok ()
  else Except.error "COLMAP command failed"

/-- Embeds the stage sequencing of `COLMAPProcessor.process`: the four stage
helpers are awaited one after the other, and the `RuntimeError` raised by
`_run_command` on a non-zero exit code propagates, abandoning the rest of the
method.  `rc` gives each stage's exit code.  The first component records
which stages were started, the second the overall outcome (statistics
gathering on success is modelled separately by `get_statistics`). -/
def process (rc : Stage → Int) : List Stage × Except String Unit :=
  match run_command (rc Stage.featureExtraction) with
  | Except.error e => ([Stage.featureExtraction], Except.error e)
  | Except.ok _ =>
    match run_command (rc Stage.featureMatching) with
    | Except.error e =>
        ([Stage.featureExtraction, Stage.featureMatching], Except.error e)
    | Except.ok _ =>
      match run_command (rc Stage.sparseReconstruction) with
      | Except.error e =>
          ([Stage.featureExtraction, Stage.featureMatching,
            Stage.sparseReconstruction], Except.error e)
      | Except.ok _ =>
        match run_command (rc Stage.imageUndistortion) with
        | Except.error e => (stageOrder, Except.error e)
        | Except.ok _ => (stageOrder, Except.ok ())

/-- Embeds the reconstruction-folder resolution shared by
`COLMAPProcessor._image_undistortion` and `_get_statistics`:

    reconstruction_path = sparse_path / "0"
    if not reconstruction_path.exists():
        reconstruction_path = list(sparse_path.glob("*"))[0]

`entries` is the listing of `sparse_path` in the order `pathlib.Path.glob`
enumerates it — which is the filesystem's arbitrary `os.scandir` order, not
a sorted order.  `"0"` exists exactly when it occurs in the listing.  On an
empty listing, `list(...)[0]` raises `IndexError`. -/
def resolveReconstruction (entries : List String) : Except String String :=
  if "0" ∈ entries then Except.ok "0"
  else
    match entries with
    | [] => Except.error "IndexError"
    | e :: _ => Except.ok e

/-- Lexicographic order on character lists, by code point. -/
def lexLe (a b : List Char) : Bool :=
  match a, b with
  | [], _ => true
  | _ :: _, [] => false
  | c :: cs, d :: ds => if c = d then lexLe cs ds else decide (c < d)

/-- Insert a string into a lexicographically sorted list of strings. -/
def insertSorted (x : String) : List String → List String
  | [] => [x]
  | y :: ys =>
      if lexLe x.toList y.toList then x :: y :: ys else y :: insertSorted x ys

/-- Lexicographic insertion sort on strings. -/
def sortStrings : List String → List String
  | [] => []
  | x :: xs => insertSorted x (sortStrings xs)

/-- Modelled from the spec: the resolution as the specification words it —
prefer the well-known subfolder `"0"`, otherwise take the first entry of a
lexicographically sorted listing of the parent directory.  Stated only to be
compared with `resolveReconstruction`, the definition taken from the
source. -/
def resolveReconstructionSortedSpec (entries : List String) :
    Except String String :=
  if "0" ∈ entries then Except.ok "0"
  else
    match sortStrings entries with
    | [] => Except.error "MissingArtifact"
    | e :: _ => Except.ok e

/-- Number of lines of a statistics file that do not start with `"#"`
(`sum(1 for line in f if not line.startswith("#"))`). -/
def countNonComment (ls : List String) : Nat :=
  (ls.filter (fun l => !(pyStartsWith l "#"))).length

/-- The statistics value returned by `_get_statistics`: either the empty dict
`{}` (the `except` branch) or the three counts. -/
inductive Stats
  | empty
  | counts (num_cameras num_images num_points : Nat)
deriving DecidableEq, Repr

/-- The observable filesystem state `_get_statistics` reads: the listing of
`sparse_path` (in glob enumeration order) and, for the resolved
reconstruction folder, the lines of `cameras.txt`, `images.txt` and
`points3D.txt` when each file exists. -/
structure SparseDir where
  entries : List String
  camerasFile : Option (List String)
  imagesFile : Option (List String)
  pointsFile : Option (List String)
deriving DecidableEq, Repr

/-- Embeds `COLMAPProcessor._get_statistics`: resolve the reconstruction
folder (the `IndexError` on an empty listing is caught by the surrounding
`try`, which logs a warning and returns `{}`); count non-comment lines of
`cameras.txt` and `points3D.txt`, and half the non-comment lines of
`images.txt` (each image has 2 lines); a missing file leaves its count at
0. -/
def get_statistics (d : SparseDir) : Stats :=
  match resolveReconstruction d.entries with
  | Except.error _ => Stats.empty
  | Except.ok _ =>
      Stats.counts
        (match d.camerasFile with
         | some ls => countNonComment ls
         | none => 0)
        (match d.imagesFile with
         | some ls => countNonComment ls / 2
         | none => 0)
        (match d.pointsFile with
         | some ls => countNonComment ls
         | none => 0)

/-! ## Progress parser (TrainingManager._parse_training_output) -/

/-- Digit list to the number it denotes in base 10. -/
def digitsToNat (ds : List Char) : Nat :=
  ds.foldl (fun a c => a * 10 + (c.toNat - 48)) 0

/-- Python `int(s)` on an already-stripped string: optional sign followed by
one or more digits; anything else raises `ValueError`, modelled as `none`. -/
def pyInt (s : String) : Option Int :=
  let cs := s.toList
  let signDigits : Int × List Char :=
    match cs with
    | '+' :: rest => (1, rest)
    | '-' :: rest => (-1, rest)
    | _ => (1, cs)
  if signDigits.2 ≠ [] ∧ signDigits.2.all Char.isDigit then
    some (signDigits.1 * (digitsToNat signDigits.2 : Int))
  else none

/-- Python `float(s)` on an already-stripped string, restricted to the plain
decimal forms the training telemetry uses: optional sign, then digits with at
most one decimal point and at least one digit overall.  Exponent, `inf` and
`nan` forms are out of the modelled fragment.  The value is kept exact as a
rational; anything else raises `ValueError`, modelled as `none`. -/
def pyFloat (s : String) : Option ℚ :=
  let cs := s.toList
  let signDigits : Bool × List Char :=
    match cs with
    | '+' :: rest => (false, rest)
    | '-' :: rest => (true, rest)
    | _ => (false, cs)
  let signed : Int → Int := fun n => if signDigits.1 then -n else n
  match signDigits.2.splitOn '.' with
  | [ip] =>
      if ip ≠ [] ∧ ip.all Char.isDigit then
        some (mkRat (signed (digitsToNat ip)) 1)
      else none
  | [ip, fp] =>
      if (ip ≠ [] ∨ fp ≠ []) ∧ ip.all Char.isDigit ∧ fp.all Char.isDigit then
        some (mkRat
          (signed (digitsToNat ip * 10 ^ fp.length + digitsToNat fp))
          (10 ^ fp.length))
      else none
  | _ => none

/-- The `for part in parts` loop of `_parse_training_output`, threading the
`iteration` and `loss` locals (initially `None`).  A part containing
`"iter"` is parsed as `int(part.split(":")[1].strip())`; otherwise a part
containing `"loss"` as `float(part.split(":")[1].strip())`.  A missing `":"`
raises `IndexError` and a malformed number raises `ValueError`; either
exception abandons the loop (and is caught by the caller). -/
def parseLoop (parts : List String) (it : Option Int) (ls : Option ℚ) :
    Except String (Option Int × Option ℚ) :=
  match parts with
  | [] => Except.ok (it, ls)
  | p :: rest =>
      let part := pyStrip p
      if pyIn "iter" part then
        match (pySplit part ':')[1]? with
        | none => Except.error "IndexError"
        | some seg =>
            match pyInt (pyStrip seg) with
            | none => Except.error "ValueError"
            | some n => parseLoop rest (some n) ls
      else if pyIn "loss" part then
        match (pySplit part ':')[1]? with
        | none => Except.error "IndexError"
        | some seg =>
            match pyFloat (pyStrip seg) with
            | none => Except.error "ValueError"
            | some q => parseLoop rest it (some q)
      else parseLoop rest it ls

/-- The body of `_parse_training_output` without its surrounding
`try/except`: if the line contains both `"iter"` and `"loss"`, split it on
`","` and run the extraction loop; return the progress record only when both
fields were found.  Errors are the exceptions the body can raise. -/
def parseBody (line : String) : Except String (Option (Int × ℚ)) :=
  if pyIn "iter" line ∧ pyIn "loss" line then
    match parseLoop (pySplit line ',') none none with
    | Except.error e => Except.error e
    | Except.ok (some n, some q) => Except.ok (some (n, q))
    | Except.ok _ => Except.ok none
  else Except.ok none

/-- Embeds `TrainingManager._parse_training_output`: the body runs under
`try ... except Exception: logger.debug(...)`, so every exception is
swallowed and the function falls through to `return None`. -/
def parse_training_output (line : String) : Option (Int × ℚ) :=
  match parseBody line with
  | Except.error _ => none
  | Except.ok r => r

/-! ## Claim theorems -/

/-- Claim C1, counterexample: with a running job recorded for project
`"scene"` (iteration 500, pid 41), a second start for the same project is
not rejected with a conflict error — it succeeds and overwrites the registry
entry with a fresh running record (pid 42, iteration 0), so the already
active job's recorded state is not left unchanged either. -/
theorem start_training_conflict_cex :
    start_training (Except.ok 42) true
        [("scene", Job.mk 41 true true "running" 500 1)]
        (TrainConfig.mk (some "scene"))
      = Except.ok [("scene", Job.mk 42 true true "running" 0 0)] ∧
    Job.mk 42 true true "running" 0 0 ≠ Job.mk 41 true true "running" 500 1 :=
  ⟨rfl, by decide⟩

/-- Claim C1, amended: `start_training` performs no conflict check.  A
start issued while a job for the project is already recorded as Running or
Paused does not raise a `ConflictError`; with a successful spawn it always
succeeds and replaces the project's registry entry with a fresh record
(status running, iteration 0, loss 0, the new pid), discarding the active
job's recorded state. -/
theorem start_training_no_conflict (pid : Nat) (g : Bool) (s : TState)
    (cfg : TrainConfig) (job : Job)
    (h : lookupJob s (cfg.scene_name.getD "default") = some job)
    (hact : job.status = "running" ∨ job.status = "paused") :
    ∃ s1, start_training (Except.ok pid) g s cfg = Except.ok s1 ∧
      lookupJob s1 (cfg.scene_name.getD "default")
        = some (Job.mk pid true g "running" 0 0) := by
  exact ⟨_, rfl, lookupJob_setJob s (cfg.scene_name.getD "default") _⟩

/-- Claim C1, witness for the amended theorem at a concrete active-job
state. -/
theorem start_training_no_conflict_witness :
    lookupJob [("scene", Job.mk 41 true true "running" 500 1)] "scene"
      = some (Job.mk 41 true true "running" 500 1) ∧
    (Job.mk 41 true true "running" 500 1).status = "running" ∧
    ∃ s1, start_training (Except.ok 7) true
        [("scene", Job.mk 41 true true "running" 500 1)]
        (TrainConfig.mk (some "scene")) = Except.ok s1 ∧
      lookupJob s1 "scene" = some (Job.mk 7 true true "running" 0 0) :=
  ⟨by decide, by decide,
    start_training_no_conflict 7 true
      [("scene", Job.mk 41 true true "running" 500 1)]
      (TrainConfig.mk (some "scene")) (Job.mk 41 true true "running" 500 1)
      (by decide) (Or.inl (by decide))⟩

/-- Claim C2, counterexample: pause on a job already recorded as Paused is
not rejected with a `NotRunning` error — it succeeds and sends another
stop-execution signal; and pause for a never-started project is a silent
success, not a `NotRunning` error. -/
theorem pause_training_wrong_state_cex :
    pause_training [("p", Job.mk 7 true true "paused" 100 1)] "p"
      = Except.ok ([("p", Job.mk 7 true true "paused" 100 1)],
          [(7, Sig.sigstop)]) ∧
    pause_training [] "q" = Except.ok ([], []) :=
  ⟨rfl, rfl⟩

/-- Claim C2, amended: `pause_training` checks only membership in the
active-jobs table, not the Running state.  For a project without an entry it
does nothing and raises no error; for any recorded job whose process is
still alive — whatever its status, including Paused — it sends `SIGSTOP` and
sets the status to paused; for a recorded job whose process has exited, the
raw `os.kill` raises `ProcessLookupError`.  No `NotRunning` error exists. -/
theorem pause_training_presence_only (s : TState) (name : String) :
    (lookupJob s name = none → pause_training s name = Except.ok (s, [])) ∧
    (∀ job : Job, lookupJob s name = some job → job.alive = true →
      pause_training s name
        = Except.ok (setJob s name { job with status := "paused" },
            [(job.pid, Sig.sigstop)])) ∧
    (∀ job : Job, lookupJob s name = some job → job.alive = false →
      pause_training s name = Except.error "ProcessLookupError") := by
  refine ⟨?_, ?_, ?_⟩
  · intro h
    simp [pause_training, h]
  · intro job h ha
    simp [pause_training, h, ha]
  · intro job h ha
    simp [pause_training, h, ha]

/-- Claim C2, witness for the amended theorem at a concrete paused-job
state. -/
theorem pause_training_presence_only_witness :
    lookupJob [("p", Job.mk 7 true true "paused" 100 1)] "p"
      = some (Job.mk 7 true true "paused" 100 1) ∧
    pause_training [("p", Job.mk 7 true true "paused" 100 1)] "p"
      = Except.ok ([("p", Job.mk 7 true true "paused" 100 1)],
          [(7, Sig.sigstop)]) :=
  ⟨by decide,
    (pause_training_presence_only
        [("p", Job.mk 7 true true "paused" 100 1)] "p").2.1
      (Job.mk 7 true true "paused" 100 1) (by decide) (by decide)⟩

/-- Claim C3, counterexample: stop on a job already in the terminal state
`"completed"` is not a no-op — it overwrites the recorded status with
`"stopped"`. -/
theorem stop_training_completed_cex :
    stop_training [("p", Job.mk 9 false true "completed" 800 1)] "p"
      = Except.ok ([("p", Job.mk 9 false true "stopped" 800 1)], []) ∧
    Job.mk 9 false true "stopped" 800 1
      ≠ Job.mk 9 false true "completed" 800 1 :=
  ⟨rfl, by decide⟩

/-- Claim C3, amended: `stop_training` never raises; every stop on a
recorded job leaves it with status `"stopped"` and a dead process, sending at
most a terminate plus, after the 10-second grace period, a kill (so the job
reaches Stopped within the grace period plus forceful-termination time); and
a second stop after a successful stop is a no-op (same table, no signals, no
error).  But stop on a job in any other terminal state (Completed, Errored)
is not a no-op: its status is overwritten with `"stopped"`. -/
theorem stop_training_always_stops (s : TState) (name : String) :
    (∃ r, stop_training s name = Except.ok r) ∧
    (∀ job : Job, lookupJob s name = some job →
      ∃ s1 sigs, stop_training s name = Except.ok (s1, sigs) ∧
        lookupJob s1 name
          = some { job with status := "stopped", alive := false } ∧
        sigs.length ≤ 2 ∧
        stop_training s1 name = Except.ok (s1, [])) := by
  constructor
  · cases h : lookupJob s name with
    | none => exact ⟨(s, []), by simp [stop_training, h]⟩
    | some job =>
        refine ⟨(setJob s name { job with status := "stopped", alive := false },
          if job.alive then
            if job.exitsInGrace then [(job.pid, Sig.sigterm)]
            else [(job.pid, Sig.sigterm), (job.pid, Sig.sigkill)]
          else []), ?_⟩
        simp [stop_training, h]
  · intro job h
    refine ⟨setJob s name { job with status := "stopped", alive := false },
      if job.alive then
        if job.exitsInGrace then [(job.pid, Sig.sigterm)]
        else [(job.pid, Sig.sigterm), (job.pid, Sig.sigkill)]
      else [], ?_, ?_, ?_, ?_⟩
    · simp [stop_training, h]
    · exact lookupJob_setJob s name _
    · split_ifs <;> simp
    · have hl : lookupJob
          (setJob s name { job with status := "stopped", alive := false }) name
          = some { job with status := "stopped", alive := false } :=
        lookupJob_setJob s name _
      simp [stop_training, hl, setJob_setJob]

/-- Claim C3, witness for the amended theorem at a concrete running-job
state (a process that ignores the grace period, so both terminate and kill
are sent). -/
theorem stop_training_always_stops_witness :
    lookupJob [("p", Job.mk 3 true false "running" 10 1)] "p"
      = some (Job.mk 3 true false "running" 10 1) ∧
    (∃ s1 sigs,
      stop_training [("p", Job.mk 3 true false "running" 10 1)] "p"
        = Except.ok (s1, sigs) ∧
      lookupJob s1 "p" = some (Job.mk 3 false false "stopped" 10 1) ∧
      sigs.length ≤ 2 ∧
      stop_training s1 "p" = Except.ok (s1, [])) :=
  ⟨by decide,
    (stop_training_always_stops
        [("p", Job.mk 3 true false "running" 10 1)] "p").2
      (Job.mk 3 true false "running" 10 1) (by decide)⟩

/-- Claim C4, counterexample: after broadcasting to a closed subscriber
(id 1) and an open one (id 2), the failing subscriber is NOT unregistered —
the connection list is returned unchanged and still contains it; only the
delivery is skipped. -/
theorem broadcast_no_unregister_cex :
    broadcast [Conn.mk 1 true, Conn.mk 2 false] 5
      = ([Conn.mk 1 true, Conn.mk 2 false], [2]) ∧
    Conn.mk 1 true ∈ (broadcast [Conn.mk 1 true, Conn.mk 2 false] 5).1 :=
  ⟨rfl, by decide⟩

theorem broadcastLoop_eq (conns : List Conn) (m : Nat) :
    broadcastLoop conns m = (conns.filter (fun c => !c.closed)).map Conn.id := by
  induction conns with
  | nil => simp [broadcastLoop]
  | cons c rest ih =>
      by_cases h : c.closed
      · simp [broadcastLoop, send_json, h, ih]
      · simp [broadcastLoop, send_json, h, ih]

/-- Claim C4, amended: `broadcast` never raises to the producer — every
exception from a subscriber send is swallowed — and every subscriber whose
channel is open receives the event, and also every subsequently published
event.  But a subscriber whose send fails is NOT unregistered: the
subscriber list is left exactly as it was (removal happens only through the
separate `disconnect` call when the socket endpoint observes the
disconnect). -/
theorem broadcast_best_effort (conns : List Conn) (m m2 : Nat) :
    (broadcast conns m).1 = conns ∧
    (broadcast conns m).2 = (conns.filter (fun c => !c.closed)).map Conn.id ∧
    (broadcast (broadcast conns m).1 m2).2
      = (conns.filter (fun c => !c.closed)).map Conn.id := by
  exact ⟨rfl, broadcastLoop_eq conns m, broadcastLoop_eq conns m2⟩

/-- Claim C5: the pipeline runs its stages strictly in the declared order
(the started stages always form a prefix of that order), and a stage is
started only when every stage before it exited with code 0; consequently
after a stage fails, no later stage is ever started. -/
theorem process_executed (rc : Stage → Int) :
    (process rc).1 =
      if rc Stage.featureExtraction = 0 then
        if rc Stage.featureMatching = 0 then
          if rc Stage.sparseReconstruction = 0 then stageOrder
          else stageOrder.take 3
        else stageOrder.take 2
      else stageOrder.take 1 := by
  by_cases h1 : rc Stage.featureExtraction = 0 <;>
    by_cases h2 : rc Stage.featureMatching = 0 <;>
      by_cases h3 : rc Stage.sparseReconstruction = 0 <;>
        by_cases h4 : rc Stage.imageUndistortion = 0 <;>
          simp [process, run_command, h1, h2, h3, h4, stageOrder]

theorem pipeline_stage_cut (rc : Stage → Int) :
    (∃ k, (process rc).1 = stageOrder.take k) ∧
    (∀ s t : Stage, s ∈ (process rc).1 → stageIdx t < stageIdx s →
      rc t = 0) := by
  constructor
  · rw [process_executed]
    split_ifs
    · exact ⟨4, rfl⟩
    · exact ⟨3, rfl⟩
    · exact ⟨2, rfl⟩
    · exact ⟨1, rfl⟩
  · intro s t hs hlt
    rw [process_executed] at hs
    split_ifs at hs with a b c <;>
      cases s <;> cases t <;> simp_all [stageIdx, stageOrder]

/-- An exit-code assignment where the second stage (feature matching) fails
and all others would succeed. -/
def rcFailMatch : Stage → Int :=
  fun s => if s = Stage.featureMatching then 1 else 0

/-- Claim C5, witness: with the matching stage failing, the matching stage
itself is started, and the theorem yields that the stage before it exited
successfully; later stages do not appear in the started list. -/
theorem pipeline_stage_cut_witness :
    Stage.featureMatching ∈ (process rcFailMatch).1 ∧
    stageIdx Stage.featureExtraction < stageIdx Stage.featureMatching ∧
    rcFailMatch Stage.featureExtraction = 0 ∧
    Stage.sparseReconstruction ∉ (process rcFailMatch).1 :=
  ⟨by decide, by decide,
    (pipeline_stage_cut rcFailMatch).2 Stage.featureMatching
      Stage.featureExtraction (by decide) (by decide),
    by decide⟩

/-- Claim C6: parsing the line `"iter: 1000, loss: 0.0234"` yields a
progress event with integer iteration 1000 and the exact decimal loss
234/10000 (the value 0.0234, kept exact as a rational in this model of
Python float parsing); parsing `"starting worker pool"` yields no event. -/
theorem parse_training_output_examples :
    parse_training_output "iter: 1000, loss: 0.0234"
      = some (1000, mkRat 234 10000) ∧
    parse_training_output "starting worker pool" = none :=
  ⟨by decide, by decide⟩

/-- Claim C7: the parser is total and never raises.  Its body may raise
(`IndexError` from a part without a colon, `ValueError` from a malformed
numeric field), but `_parse_training_output` converts every such exception
into the no-event answer `none`, and otherwise returns exactly what the body
computed (a progress event or `none`). -/
theorem parse_training_output_total (line : String) :
    (∀ e, parseBody line = Except.error e →
      parse_training_output line = none) ∧
    (∀ r, parseBody line = Except.ok r → parse_training_output line = r) := by
  constructor <;> intro x h <;> simp [parse_training_output, h]

/-- Claim C7, witness: a line with both markers but a malformed iteration
field makes the body raise `ValueError`, and the parser returns `none`
rather than propagating it. -/
theorem parse_training_output_total_witness :
    parseBody "iter: x, loss: 0.1" = Except.error "ValueError" ∧
    parse_training_output "iter: x, loss: 0.1" = none :=
  ⟨by rfl, (parse_training_output_total "iter: x, loss: 0.1").1 "ValueError"
    (by rfl)⟩

/-- Claim C8, counterexample: with the sparse folder listing enumerated as
`["b", "a"]` (no `"0"` present), the code takes the FIRST ENUMERATED entry
`"b"`, while the claim's lexicographically-sorted convention would pick
`"a"`; and on an empty listing the code raises a plain `IndexError` rather
than a dedicated missing-artifact error. -/
theorem resolve_reconstruction_sorted_cex :
    resolveReconstruction ["b", "a"] = Except.ok "b" ∧
    resolveReconstructionSortedSpec ["b", "a"] = Except.ok "a" ∧
    ("b" : String) ≠ "a" ∧
    resolveReconstruction [] = Except.error "IndexError" :=
  ⟨rfl, rfl, by decide, rfl⟩

/-- Claim C8, amended: the resolution prefers the fixed subfolder `"0"`
when it exists; otherwise it takes the first entry of the directory listing
in the order the filesystem enumerates it (`pathlib.Path.glob` does not
sort); and an empty listing raises an `IndexError` (an unhandled exception
that propagates as the pipeline failure — there is no dedicated
`MissingArtifact` error). -/
theorem resolve_reconstruction_behavior (entries : List String) :
    ("0" ∈ entries → resolveReconstruction entries = Except.ok "0") ∧
    (∀ e rest, entries = e :: rest → "0" ∉ entries →
      resolveReconstruction entries = Except.ok e) ∧
    (entries = [] →
      resolveReconstruction entries = Except.error "IndexError") := by
  refine ⟨?_, ?_, ?_⟩
  · intro h
    simp [resolveReconstruction, h]
  · intro e rest he h
    subst he
    simp [resolveReconstruction, h]
  · intro h
    subst h
    simp [resolveReconstruction]

/-- Claim C8, witness for the amended theorem: fallback on an unsorted
two-entry listing picks the first enumerated entry. -/
theorem resolve_reconstruction_behavior_witness :
    ("0" : String) ∉ (["b", "a"] : List String) ∧
    resolveReconstruction ["b", "a"] = Except.ok "b" :=
  ⟨by decide,
    (resolve_reconstruction_behavior ["b", "a"]).2.1 "b" ["a"] rfl (by decide)⟩

/-- Claim C9: on a resolved reconstruction folder whose points3D file has 5
non-comment lines and whose cameras file has 2 non-comment lines, the
statistics are `num_points = 5`, `num_cameras = 2`; an absent images file
gives `num_images = 0` without raising; and when the sparse listing is empty
(so resolution itself fails), the caught exception degrades the result to
the empty statistics dict instead of failing the pipeline. -/
theorem get_statistics_counts :
    (∀ (d : SparseDir) (cam pts : List String),
      "0" ∈ d.entries → d.camerasFile = some cam → d.imagesFile = none →
      d.pointsFile = some pts → countNonComment cam = 2 →
      countNonComment pts = 5 → get_statistics d = Stats.counts 2 0 5) ∧
    (∀ c i p, get_statistics (SparseDir.mk [] c i p) = Stats.empty) := by
  constructor
  · intro d cam pts h0 hc hi hp hc2 hp5
    simp [get_statistics, resolveReconstruction, h0, hc, hi, hp, hc2, hp5]
  · intro c i p
    simp [get_statistics, resolveReconstruction]

/-- Claim C9, witness at a concrete folder: a cameras file with one comment
line and two entries, no images file, and a points file with five
entries. -/
theorem get_statistics_counts_witness :
    ("0" : String) ∈
      (SparseDir.mk ["0"] (some ["# hdr", "c1", "c2"]) none
        (some ["p1", "p2", "p3", "p4", "p5"])).entries ∧
    countNonComment ["# hdr", "c1", "c2"] = 2 ∧
    countNonComment ["p1", "p2", "p3", "p4", "p5"] = 5 ∧
    get_statistics
      (SparseDir.mk ["0"] (some ["# hdr", "c1", "c2"]) none
        (some ["p1", "p2", "p3", "p4", "p5"])) = Stats.counts 2 0 5 :=
  ⟨by decide, by decide, by decide,
    get_statistics_counts.1
      (SparseDir.mk ["0"] (some ["# hdr", "c1", "c2"]) none
        (some ["p1", "p2", "p3", "p4", "p5"]))
      ["# hdr", "c1", "c2"] ["p1", "p2", "p3", "p4", "p5"]
      (by decide) rfl rfl rfl (by decide) (by decide)⟩

/-- Claim C10: `get_status` for a project with no entry in the active-jobs
table returns the `not_started` record without raising, and `get_status`
never mutates the table in any case (the state component of its result is
always the input table). -/
theorem get_status_not_started (s : TState) (name : String) :
    (lookupJob s name = none →
      get_status s name = (StatusResult.notStarted, s)) ∧
    (get_status s name).2 = s := by
  constructor
  · intro h
    simp [get_status, h]
  · cases h : lookupJob s name <;> simp [get_status, h]

/-- Claim C10, witness at a table that records a different project only. -/
theorem get_status_not_started_witness :
    lookupJob [("other", Job.mk 1 true true "running" 5 1)] "ghost" = none ∧
    get_status [("other", Job.mk 1 true true "running" 5 1)] "ghost"
      = (StatusResult.notStarted,
          [("other", Job.mk 1 true true "running" 5 1)]) :=
  ⟨by decide,
    (get_status_not_started
        [("other", Job.mk 1 true true "running" 5 1)] "ghost").1 (by decide)⟩
